import Mathlib

/-!
Verification development for the `automation` repository: a scheduled job
that registers football fixtures as on-chain matches and settles finished
ones.  Five near-duplicate variants live in the repository:

* `src/worker.js`            — "free mirror" variant (viem),
* `src/unnamed/part_000`     — quota-guard variant (viem),
* `src/unnamed/part_001`     — ScoreBat variant (viem + KV snapshot),
* `src/unnamed/part_002`     — ethers variant,
* `src/unnamed/part_003`     — multi-league viem variant.

The definitions below are a shallow embedding of the reconciliation logic
of these scripts.  Network effects are modelled by explicit oracle
arguments (`read`, `fscore`, `write`, ...), a thrown JS exception by
`Except.error`, and a JS `null`/`undefined` by `Option.none`.
-/

set_option linter.unusedVariables false

/-- A provider fixture record as consumed by the scripts:
`{fixture:{id,date,timestamp,status:{short}}, teams:{home:{name},away:{name}}}`,
flattened.  `date` is kept as the epoch-millisecond value the provider's
date string denotes (the scripts parse it with `new Date(...)`);
`timestamp` is the provider's epoch-second field (read only by
`part_002`). -/
structure RawFixture where
  id : Nat
  date : Nat
  timestamp : Nat
  statusShort : String
  homeName : String
  awayName : String
deriving DecidableEq, Repr

/-- A normalized fixture, the shape produced by every variant's
`fetchFixtures`: `{fixtureId, home, away, matchTime, status}`. -/
structure Fixture where
  fixtureId : Nat
  home : String
  away : String
  matchTime : Nat
  status : String
deriving DecidableEq, Repr

/-- Arguments of one `createMatch` write:
`[fx.home, fx.away, fx.matchTime, String(fx.fixtureId)]`. -/
structure CreateCall where
  home : String
  away : String
  matchTime : Nat
  externalId : String
deriving DecidableEq, Repr

/-- The on-chain match tuple returned by `matches(id)`, destructured by the
settle loops as `[id, home, away, matchTime, outcome, exists, deleted,
externalId, ...]` (part_003 reads five further components that never feed
a decision). -/
structure OnChainMatch where
  id : Nat
  home : String
  away : String
  matchTime : Nat
  outcome : Nat
  «exists» : Bool
  deleted : Bool
  externalId : String
deriving DecidableEq, Repr

/-- Arguments of one `settleMatchOffChain` write:
`[id, result.homeScore, result.awayScore]`.  The scores are `Option Nat`
because the provider's `goals.home` / `goals.away` fields can be JSON
`null` and the scripts forward them unvalidated. -/
structure SettleCall where
  matchId : Nat
  homeScore : Option Nat
  awayScore : Option Nat
deriving DecidableEq, Repr

/-- Normalized score result: `{status:"finished",homeScore,awayScore}` or
`{status:"pending"}`. -/
inductive ScoreResult where
  | finished (homeScore awayScore : Option Nat)
  | pending
deriving DecidableEq, Repr

/-- The observable outcome of one provider HTTP call, as the scripts see
it: the `fetch` itself may throw (`transportError`), the body may fail to
parse as JSON (`malformedBody`), or parsing succeeds and the `response`
field is absent (`parsed none`) or holds a payload (`parsed (some _)`). -/
inductive ApiResponse (α : Type) where
  | transportError
  | malformedBody
  | parsed (response : Option α)
deriving DecidableEq, Repr

/-- `toUnix` from every variant: `Math.floor(new Date(ts).getTime()/1000)`.
The provider date string is modelled by the epoch-millisecond value it
denotes. -/
def toUnix (ms : Nat) : Nat := ms / 1000

/-- The per-fixture normalization shared by every `fetchFixtures` body:
`{fixtureId: f.fixture.id, home: f.teams.home.name, away: f.teams.away.name,
matchTime: toUnix(f.fixture.date), status: f.fixture.status.short}`. -/
def normalizeFixture (f : RawFixture) : Fixture :=
  ⟨f.id, f.homeName, f.awayName, toUnix f.date, f.statusShort⟩

/-- The `createMatch` argument vector built from a normalized fixture
(worker.js line 93, part_000 line 175, part_003 line 97). -/
def mkCreateCall (fx : Fixture) : CreateCall :=
  ⟨fx.home, fx.away, fx.matchTime, toString fx.fixtureId⟩

/-- The record a provider score lookup returns for one fixture id:
`fixture.status.short` plus `goals.home` / `goals.away` (each possibly
JSON `null`). -/
structure ProviderFixture where
  statusShort : String
  goalsHome : Option Nat
  goalsAway : Option Nat
deriving DecidableEq, Repr

/-- The score lookup shared verbatim by worker.js `fetchScoreFree`
(lines 214-232), part_000 `fetchScore` (lines 285-309) and part_003
`fetchScore` (lines 205-229): no try/catch, so a transport or parse
failure propagates as an exception; otherwise `data.response?.[0]` absent
yields `null`, status `"FT"` yields a finished result carrying the raw
goals, and anything else yields `{status:"pending"}`. -/
def fetchScore (r : ApiResponse (List ProviderFixture)) :
    Except String (Option ScoreResult) :=
  match r with
  | .transportError => .error "TypeError: fetch failed"
  | .malformedBody => .error "SyntaxError: unexpected token in JSON"
  | .parsed resp =>
    match resp.bind List.head? with
    | none => .ok none
    | some fx =>
      if fx.statusShort = "FT" then
        .ok (some (.finished fx.goalsHome fx.goalsAway))
      else
        .ok (some .pending)

/-- One iteration of the registration loop shared by worker.js
(lines 85-106), part_000 `createMatches` (lines 166-189) and part_003
(lines 87-108), threading the `created` counter: break once
`created >= maxCreates`, skip fixtures whose `status !== "NS"`, otherwise
issue the `createMatch` call and increment the counter only when the
write succeeds (`w fx = true`); a failed write is caught and logged and
the loop continues. -/
def createLoop (w : Fixture → Bool) (maxCreates : Nat) :
    List Fixture → Nat → List CreateCall × Nat
  | [], created => ([], created)
  | fx :: rest, created =>
    if created ≥ maxCreates then ([], created)
    else if fx.status ≠ "NS" then createLoop w maxCreates rest created
    else
      let created' := if w fx then created + 1 else created
      let r := createLoop w maxCreates rest created'
      (mkCreateCall fx :: r.1, r.2)

/-- The multi-league registration phase of part_003 (lines 81-109, also
the shape of worker.js lines 79-109): iterate leagues with the shared
counter, breaking out once the cap is reached. -/
def registerRun (w : Fixture → Bool) (maxCreates : Nat)
    (fixturesOf : String → List Fixture) :
    List String → Nat → List CreateCall × Nat
  | [], created => ([], created)
  | lg :: rest, created =>
    if created ≥ maxCreates then ([], created)
    else
      let r := createLoop w maxCreates (fixturesOf lg) created
      let r2 := registerRun w maxCreates fixturesOf rest r.2
      (r.1 ++ r2.1, r2.2)

/-- The body of one settlement-loop iteration, shared by worker.js
(lines 121-156), part_000 `settleMatches` (lines 207-244) and part_003
(lines 121-169).  The whole body sits in a try/catch, so a failing chain
read (`read i = .error _`) or score fetch (`fscore _ = .error _`) is
caught and yields no call; otherwise the guards
`!exists || deleted`, `outcome !== 0` and `matchTime + 7200 > now` skip
the match before any score lookup, and a settlement call is issued only
for a `"finished"` score result. -/
def settleStep (read : Nat → Except String OnChainMatch)
    (fscore : String → Except String (Option ScoreResult))
    (now : Nat) (i : Nat) : Option SettleCall :=
  match read i with
  | .error _ => none
  | .ok m =>
    if !m.«exists» || m.deleted then none
    else if m.outcome ≠ 0 then none
    else if m.matchTime + 7200 > now then none
    else
      match fscore m.externalId with
      | .error _ => none
      | .ok none => none
      | .ok (some .pending) => none
      | .ok (some (.finished h a)) => some ⟨m.id, h, a⟩

/-- The settlement scan over a list of candidate ids, collecting the
issued `settleMatchOffChain` calls and counting the successful writes
(part_000 increments `settled` only after the write succeeds; a throwing
write is caught and the scan continues). -/
def settleGo (read : Nat → Except String OnChainMatch)
    (fscore : String → Except String (Option ScoreResult))
    (write : SettleCall → Bool) (now : Nat) :
    List Nat → List SettleCall × Nat
  | [] => ([], 0)
  | i :: rest =>
    let r := settleGo read fscore write now rest
    match settleStep read fscore now i with
    | none => r
    | some c => (c :: r.1, (if write c then 1 else 0) + r.2)

/-- The full settlement scan `for (let i = 1; i < Number(nextMatchId); i++)`
of worker.js / part_000 / part_003. -/
def settleMatches (read : Nat → Except String OnChainMatch)
    (fscore : String → Except String (Option ScoreResult))
    (write : SettleCall → Bool) (now nextMatchId : Nat) :
    List SettleCall × Nat :=
  settleGo read fscore write now (List.range' 1 (nextMatchId - 1))

namespace Worker

/-- The top-level function names actually defined in `src/worker.js`:
`toUnix` (line 12), `sleep` (line 16), `runAutomation` (line 32),
`fetchFixtures` (line 162) and `fetchScoreFree` (line 214).
`fetchFixturesFree`, referenced at line 82, is not among them. -/
def topLevelNames : List String :=
  ["toUnix", "sleep", "runAutomation", "fetchFixtures", "fetchScoreFree"]

/-- `const leagues = ["39", "140", "2"]` (worker.js line 48). -/
def leagues : List String := ["39", "140", "2"]

/-- `fetchFixtures` of worker.js (lines 162-211): the fetch and the JSON
parse are each wrapped in try/catch returning `[]`, a missing `response`
field also returns `[]`, and otherwise each entry is normalized. -/
def fetchFixtures (r : ApiResponse (List RawFixture)) : List Fixture :=
  match r with
  | .transportError => []
  | .malformedBody => []
  | .parsed none => []
  | .parsed (some fs) => fs.map normalizeFixture

/-- The registration phase of worker.js `runAutomation` (lines 77-109).
JS resolves the callee name `fetchFixturesFree` at line 82 when the call
is evaluated; the name is absent from `topLevelNames`, so the call throws
a `ReferenceError` that no surrounding try/catch intercepts and the phase
aborts.  (Had the name resolved, the per-league body would be
`createLoop` as in the sibling variants.)  Returns the issued calls, the
final counter, and the uncaught exception if one was thrown. -/
def registerPhase (fixturesOf : String → List Fixture) (w : Fixture → Bool)
    (batchLimit : Nat) : List String → Nat → List CreateCall × Nat × Option String
  | [], created => ([], created, none)
  | lg :: rest, created =>
    if created ≥ batchLimit then ([], created, none)
    else if topLevelNames.contains "fetchFixturesFree" then
      let r := createLoop w batchLimit (fixturesOf lg) created
      let r2 := registerPhase fixturesOf w batchLimit rest r.2
      (r.1 ++ r2.1, r2.2)
    else ([], created, some "ReferenceError: fetchFixturesFree is not defined")

/-- The observable trace of one worker.js invocation: the `createMatch`
calls issued, the `settleMatchOffChain` calls issued, and the uncaught
exception that rejected the run, if any. -/
structure RunTrace where
  createCalls : List CreateCall
  settleCalls : List SettleCall
  uncaught : Option String
deriving DecidableEq, Repr

/-- `runAutomation` of worker.js (lines 32-159): bail out silently when
configuration is missing (lines 43-46); run the registration phase over
the three hard-coded leagues; an uncaught exception there rejects the
run before the settlement scan; otherwise scan `[1, nextMatchId)`. -/
def runAutomation (cfgOk : Bool) (fixturesOf : String → List Fixture)
    (w : Fixture → Bool) (batchLimit : Nat)
    (read : Nat → Except String OnChainMatch)
    (fscore : String → Except String (Option ScoreResult))
    (write : SettleCall → Bool) (now nextMatchId : Nat) : RunTrace :=
  if !cfgOk then ⟨[], [], none⟩
  else
    match registerPhase fixturesOf w batchLimit leagues 0 with
    | (cs, _, some e) => ⟨cs, [], some e⟩
    | (cs, _, none) =>
      ⟨cs, (settleMatches read fscore write now nextMatchId).1, none⟩

end Worker

namespace P000

/-- `SAFE_LIMIT = 80` (part_000 line 41). -/
def SAFE_LIMIT : Nat := 80

/-- The `requests` object of the provider's `/status` response: `current`
is the number of calls already used today, `limit_day` the daily cap.
part_000 reads only `current`. -/
structure ApiRequests where
  current : Nat
  limit_day : Nat
deriving DecidableEq, Repr

/-- `fetchApiUsage` of part_000 (lines 135-151): a throwing fetch or parse
is caught and returns `SAFE_LIMIT`; otherwise
`data.response?.requests?.current ?? 0` — the outer `Option` models the
throw, the inner one an absent field chain. -/
def fetchApiUsage (r : Option (Option ApiRequests)) : Nat :=
  match r with
  | none => SAFE_LIMIT
  | some none => 0
  | some (some req) => req.current

/-- `fetchFixtures` of part_000 (lines 252-280), identical in part_003
(lines 175-202): no try/catch anywhere, so a throwing `fetch` or a
malformed body propagates the exception to the caller; a missing
`response` field falls back to `[]` via `data.response || []`. -/
def fetchFixtures (r : ApiResponse (List RawFixture)) :
    Except String (List Fixture) :=
  match r with
  | .transportError => .error "TypeError: fetch failed"
  | .malformedBody => .error "SyntaxError: unexpected token in JSON"
  | .parsed none => .ok []
  | .parsed (some fs) => .ok (fs.map normalizeFixture)

/-- The observable trace of one part_000 invocation. -/
structure RunTrace where
  createCalls : List CreateCall
  settleCalls : List SettleCall
  uncaught : Option String
deriving DecidableEq, Repr

/-- `runAutomation` of part_000 (lines 50-121): bail out on missing
configuration; read the quota via `fetchApiUsage` and return early when
the value is `< 5` (lines 96-103); otherwise run `createMatches` (whose
internal `fetchFixtures` may throw, rejecting the run before settlement,
since no try/catch surrounds it) and then `settleMatches`. -/
def runAutomation (cfgOk : Bool) (status : Option (Option ApiRequests))
    (fixturesResp : ApiResponse (List RawFixture)) (w : Fixture → Bool)
    (maxCreates : Nat) (read : Nat → Except String OnChainMatch)
    (fscore : String → Except String (Option ScoreResult))
    (write : SettleCall → Bool) (now nextMatchId : Nat) : RunTrace :=
  if !cfgOk then ⟨[], [], none⟩
  else if fetchApiUsage status < 5 then ⟨[], [], none⟩
  else
    match fetchFixtures fixturesResp with
    | .error e => ⟨[], [], some e⟩
    | .ok fs =>
      ⟨(createLoop w maxCreates fs 0).1,
       (settleMatches read fscore write now nextMatchId).1, none⟩

end P000

namespace P002

/-- The per-match registration of part_002 `scheduled` (lines 37-57):
every entry of `allMatches` gets one `createMatch` attempt with
`(home.name, away.name, timestamp, externalId.toString())`; there is no
status filter, and a rejected write is caught per item ("Skip existing
match") without affecting the attempt list. -/
def processMatches (allMatches : List RawFixture) : List CreateCall :=
  allMatches.map (fun m => ⟨m.homeName, m.awayName, m.timestamp, toString m.id⟩)

/-- `scheduled` of part_002 (lines 3-61): fixtures of all leagues are
collected first (lines 21-34, `if (data.response)` guards an absent
field, but a throwing fetch or parse has no handler and rejects the whole
run), then every collected match is registered. -/
def scheduled (responses : List (ApiResponse (List RawFixture))) :
    Except String (List CreateCall) :=
  match collect responses with
  | .error e => .error e
  | .ok ms => .ok (processMatches ms)
where
  collect : List (ApiResponse (List RawFixture)) → Except String (List RawFixture)
    | [] => .ok []
    | .transportError :: _ => .error "TypeError: fetch failed"
    | .malformedBody :: _ => .error "SyntaxError: unexpected token in JSON"
    | .parsed none :: rest => collect rest
    | .parsed (some fs) :: rest =>
      match collect rest with
      | .error e => .error e
      | .ok ms => .ok (fs ++ ms)

end P002

namespace P001

/-- One event of the ScoreBat feed, as read by part_001: its `title`
("Home - Away") and its `date` (epoch milliseconds after parsing). -/
structure ScorebatEvent where
  title : String
  date : Nat
deriving DecidableEq, Repr

/-- The match shape part_001 stores in KV for the front end
(lines 151-156). -/
structure ScorebatMatch where
  id : Nat
  homeTeam : String
  awayTeam : String
  matchTime : Nat
deriving DecidableEq, Repr

/-- JS `title.split(" - ")[i] || dflt`: an out-of-range index yields
`undefined` and an empty segment is falsy, so both fall back to the
default team name. -/
def splitPart (s : String) (i : Nat) (dflt : String) : String :=
  match (s.splitOn " - ")[i]? with
  | none => dflt
  | some t => if t = "" then dflt else t

/-- `fetchScorebat` of part_001 (lines 139-162): the whole body is inside
try/catch returning `[]`, `json.response || []` tolerates a missing
field, and each event is numbered from 1 and split on its title. -/
def fetchScorebat (r : ApiResponse (List ScorebatEvent)) : List ScorebatMatch :=
  match r with
  | .transportError => []
  | .malformedBody => []
  | .parsed none => []
  | .parsed (some evs) =>
    evs.enum.map (fun p =>
      ⟨p.1 + 1, splitPart p.2.title 0 "Team A", splitPart p.2.title 1 "Team B",
       toUnix p.2.date⟩)

/-- The object `fetchScorebatResult` returns (part_001 lines 168-176):
only a `finished` property; `home` and `away` model the absent
properties, read as `undefined` by the (dead) settlement branch. -/
structure ScorebatResult where
  finished : Bool
  home : Option Nat
  away : Option Nat
deriving DecidableEq, Repr

/-- `fetchScorebatResult` of part_001 (lines 168-176): the ScoreBat API
carries no scores, so the function unconditionally returns the
placeholder `{finished: false}` for every external identifier. -/
def fetchScorebatResult (externalId : String) : ScorebatResult :=
  ⟨false, none, none⟩

/-- One iteration of part_001's settlement loop (lines 83-131): the body
is inside try/catch, the guards `!exists || deleted`, `outcome !== 0` and
`matchTime + 7200 > now` skip as in the sibling variants, then the result
of `fetchScorebatResult` is consulted and `!result || !result.finished`
skips (the result object is never null). -/
def settleStep (read : Nat → Except String OnChainMatch) (now : Nat)
    (i : Nat) : Option SettleCall :=
  match read i with
  | .error _ => none
  | .ok m =>
    if !m.«exists» || m.deleted then none
    else if m.outcome ≠ 0 then none
    else if m.matchTime + 7200 > now then none
    else
      let r := fetchScorebatResult m.externalId
      if !r.finished then none
      else some ⟨m.id, r.home, r.away⟩

/-- part_001's settlement scan over `[1, nextMatchId)`. -/
def settleMatches (read : Nat → Except String OnChainMatch)
    (now nextMatchId : Nat) : List SettleCall :=
  (List.range' 1 (nextMatchId - 1)).filterMap (settleStep read now)

/-- The observable trace of one part_001 invocation: the key/value pairs
written to the KV store and the settlement calls issued. -/
structure RunTrace where
  kvPuts : List (String × List ScorebatMatch)
  settleCalls : List SettleCall
deriving DecidableEq, Repr

/-- `runAutomation` of part_001 (lines 33-134): bail out on missing
configuration; otherwise fetch the ScoreBat feed, store the snapshot
under `"matches.json"`, and run the settlement scan. -/
def runAutomation (cfgOk : Bool) (feed : ApiResponse (List ScorebatEvent))
    (read : Nat → Except String OnChainMatch) (now nextMatchId : Nat) :
    RunTrace :=
  if !cfgOk then ⟨[], []⟩
  else ⟨[("matches.json", fetchScorebat feed)], settleMatches read now nextMatchId⟩

end P001

/-! ### Helper lemmas about the settlement scan -/

/-- A chain read that throws is caught by the loop's try/catch: no call. -/
theorem settleStep_eq_none_of_read_error
    (read : Nat → Except String OnChainMatch)
    (fscore : String → Except String (Option ScoreResult))
    (now i : Nat) (e : String) (h : read i = Except.error e) :
    settleStep read fscore now i = none := by
  simp only [settleStep, h]

/-- `settleStep` at index `j` depends only on the chain record at `j` and
on the score oracle's answer for that record's external id. -/
theorem settleStep_congr
    (read read' : Nat → Except String OnChainMatch)
    (fscore fscore' : String → Except String (Option ScoreResult))
    (now j : Nat) (hr : read' j = read j)
    (hs : ∀ m, read j = Except.ok m → fscore' m.externalId = fscore m.externalId) :
    settleStep read' fscore' now j = settleStep read fscore now j := by
  unfold settleStep
  rw [hr]
  cases h : read j with
  | error e => rfl
  | ok m => simp only [hs m h]

/-- Pointwise equal step results give equal scans. -/
theorem settleGo_congr
    (read read' : Nat → Except String OnChainMatch)
    (fscore fscore' : String → Except String (Option ScoreResult))
    (write : SettleCall → Bool) (now : Nat) (l : List Nat)
    (h : ∀ j ∈ l, settleStep read' fscore' now j = settleStep read fscore now j) :
    settleGo read' fscore' write now l = settleGo read fscore write now l := by
  induction l with
  | nil => rfl
  | cons a l ih =>
    simp only [settleGo]
    rw [ih (fun j hj => h j (List.mem_cons_of_mem a hj)),
        h a (List.mem_cons_self a l)]

/-- The write oracle decides only the success counter, never which calls
the scan issues. -/
theorem settleGo_fst_write_irrel
    (read : Nat → Except String OnChainMatch)
    (fscore : String → Except String (Option ScoreResult))
    (write write' : SettleCall → Bool) (now : Nat) (l : List Nat) :
    (settleGo read fscore write now l).1 = (settleGo read fscore write' now l).1 := by
  induction l with
  | nil => rfl
  | cons a l ih =>
    simp only [settleGo]
    cases settleStep read fscore now a with
    | none => exact ih
    | some c => simp only [ih]

/-- C1: an on-chain match still inside its 7200-second grace window
(`matchTime + 7200 > now`) gets no settlement call from the scanner: the
loop body yields `none` for every score oracle (the score is never
consulted), and replacing the record's read by a failing one leaves the
whole scan unchanged, so the match contributes nothing to any run. -/
theorem c1_grace_window_blocks_settlement
    (read : Nat → Except String OnChainMatch) (now i : Nat) (m : OnChainMatch)
    (h1 : read i = Except.ok m) (h2 : m.matchTime + 7200 > now) :
    (∀ fscore : String → Except String (Option ScoreResult),
      settleStep read fscore now i = none) ∧
    (∀ (fscore : String → Except String (Option ScoreResult))
       (write : SettleCall → Bool) (n : Nat),
      settleMatches (fun j => if j = i then Except.error "unread" else read j)
          fscore write now n
        = settleMatches read fscore write now n) := by
  have hstep : ∀ fscore : String → Except String (Option ScoreResult),
      settleStep read fscore now i = none := by
    intro fscore
    simp only [settleStep, h1]
    split_ifs with hA hB <;> rfl
  refine ⟨hstep, ?_⟩
  intro fscore write n
  apply settleGo_congr
  intro j hj
  by_cases hji : j = i
  · subst hji
    rw [hstep fscore,
        settleStep_eq_none_of_read_error _ fscore now j "unread" (by simp)]
  · exact settleStep_congr read _ fscore fscore now j (by simp [hji])
      (fun m hm => rfl)

/-- Witness for C1: a concrete pending match whose kickoff is still
inside the grace window is skipped although the score oracle would report
a finished 2:1 result. -/
theorem c1_grace_window_blocks_settlement_witness :
    settleStep (fun _ => Except.ok ⟨1, "H", "A", 100000, 0, true, false, "9"⟩)
      (fun _ => Except.ok (some (ScoreResult.finished (some 2) (some 1))))
      100500 1 = none :=
  (c1_grace_window_blocks_settlement
      (fun _ => Except.ok ⟨1, "H", "A", 100000, 0, true, false, "9"⟩)
      100500 1 ⟨1, "H", "A", 100000, 0, true, false, "9"⟩ rfl (by decide)).1
    (fun _ => Except.ok (some (ScoreResult.finished (some 2) (some 1))))

/-- C2: an on-chain match that is already settled (`outcome != 0`),
deleted, or non-existent is skipped before any score lookup: the loop
body yields `none` for every score oracle and every clock value. -/
theorem c2_settled_or_invalid_skipped
    (read : Nat → Except String OnChainMatch) (i : Nat) (m : OnChainMatch)
    (h1 : read i = Except.ok m)
    (h2 : m.outcome ≠ 0 ∨ m.deleted = true ∨ m.«exists» = false) :
    ∀ (fscore : String → Except String (Option ScoreResult)) (now : Nat),
      settleStep read fscore now i = none := by
  intro fscore now
  simp only [settleStep, h1]
  split_ifs with hA hB hC
  · rfl
  · rfl
  · rfl
  · exfalso
    simp only [Bool.or_eq_true, Bool.not_eq_true', not_or] at hA
    rcases h2 with h | h | h
    · exact hB h
    · rw [h] at hA
      exact absurd rfl hA.2
    · rw [h] at hA
      exact absurd rfl hA.1

/-- Witness for C2: a concrete match with `outcome = 1` is skipped even
though it is long past its grace window and the score oracle would
report a finished result. -/
theorem c2_settled_or_invalid_skipped_witness :
    settleStep (fun _ => Except.ok ⟨5, "H", "A", 100, 1, true, false, "9"⟩)
      (fun _ => Except.ok (some (ScoreResult.finished (some 2) (some 1))))
      100000 5 = none :=
  c2_settled_or_invalid_skipped
    (fun _ => Except.ok ⟨5, "H", "A", 100, 1, true, false, "9"⟩)
    5 ⟨5, "H", "A", 100, 1, true, false, "9"⟩ rfl (Or.inl (by decide))
    (fun _ => Except.ok (some (ScoreResult.finished (some 2) (some 1)))) 100000

/-- A scan whose read oracle has been broken at one index `i` issues, for
every other index, exactly the calls of the unbroken scan, and nothing
for `i` itself. -/
theorem settleGo_fst_mask
    (read : Nat → Except String OnChainMatch)
    (fscore : String → Except String (Option ScoreResult))
    (write : SettleCall → Bool) (now i : Nat) (e : String) (l : List Nat) :
    (settleGo (fun j => if j = i then Except.error e else read j)
        fscore write now l).1
      = l.filterMap (fun j => if j = i then none
          else settleStep read fscore now j) := by
  induction l with
  | nil => rfl
  | cons a l ih =>
    simp only [settleGo, List.filterMap_cons]
    by_cases ha : a = i
    · rw [settleStep_eq_none_of_read_error _ fscore now a e (by simp [ha]),
          if_pos ha]
      exact ih
    · rw [settleStep_congr read _ fscore fscore now a (by simp [ha])
            (fun m hm => rfl), if_neg ha]
      cases settleStep read fscore now a with
      | none => exact ih
      | some c => simp only [ih]

/-- C8: per-match failures are contained by the loop body's try/catch.
(1) A throwing chain read yields no call for that id; (2) a throwing
score fetch yields no call for that id; (3) the loop body at index `j`
depends only on the chain record at `j` and the score answer for its
external id, so one match's failing oracles cannot change any other
match's outcome; (4) breaking the read oracle at one index `i` leaves the
scan issuing, for every other id in `[1, nextMatchId)`, exactly the
original per-id result, with `i` contributing nothing — the remaining ids
are still evaluated; (5) a throwing settlement write affects only the
success counter, never which calls the scan issues. -/
theorem c8_error_isolation :
    (∀ (read : Nat → Except String OnChainMatch)
       (fscore : String → Except String (Option ScoreResult)) (now i : Nat)
       (e : String), read i = Except.error e →
      settleStep read fscore now i = none) ∧
    (∀ (read : Nat → Except String OnChainMatch)
       (fscore : String → Except String (Option ScoreResult)) (now i : Nat)
       (m : OnChainMatch) (e : String), read i = Except.ok m →
      fscore m.externalId = Except.error e →
      settleStep read fscore now i = none) ∧
    (∀ (read read' : Nat → Except String OnChainMatch)
       (fscore fscore' : String → Except String (Option ScoreResult))
       (now j : Nat), read' j = read j →
      (∀ m, read j = Except.ok m → fscore' m.externalId = fscore m.externalId) →
      settleStep read' fscore' now j = settleStep read fscore now j) ∧
    (∀ (read : Nat → Except String OnChainMatch)
       (fscore : String → Except String (Option ScoreResult))
       (write : SettleCall → Bool) (now n i : Nat) (e : String),
      (settleMatches (fun j => if j = i then Except.error e else read j)
          fscore write now n).1
        = (List.range' 1 (n - 1)).filterMap
            (fun j => if j = i then none else settleStep read fscore now j)) ∧
    (∀ (read : Nat → Except String OnChainMatch)
       (fscore : String → Except String (Option ScoreResult))
       (write write' : SettleCall → Bool) (now n : Nat),
      (settleMatches read fscore write now n).1
        = (settleMatches read fscore write' now n).1) := by
  refine ⟨?_, ?_, ?_, ?_, ?_⟩
  · exact fun read fscore now i e h =>
      settleStep_eq_none_of_read_error read fscore now i e h
  · intro read fscore now i m e h1 h2
    simp only [settleStep, h1]
    split_ifs with hA hB hC
    · rfl
    · rfl
    · rfl
    · simp only [h2]
  · exact fun read read' fscore fscore' now j hr hs =>
      settleStep_congr read read' fscore fscore' now j hr hs
  · intro read fscore write now n i e
    exact settleGo_fst_mask read fscore write now i e (List.range' 1 (n - 1))
  · intro read fscore write write' now n
    exact settleGo_fst_write_irrel read fscore write write' now
      (List.range' 1 (n - 1))

/-- Witness for C8: concretely, with five candidate ids whose read oracle
throws at id 3, the ids other than 3 are still evaluated (id 5 settles
2:1, the rest are skipped) and id 3 yields nothing. -/
theorem c8_error_isolation_witness :
    settleStep (fun j => if j = 3 then Except.error "boom"
        else Except.ok ⟨j, "H", "A", 100, 0, true, false, "9"⟩)
      (fun _ => Except.ok (some (ScoreResult.finished (some 2) (some 1))))
      100000 3 = none ∧
    (settleMatches (fun j => if j = 3 then Except.error "boom"
        else Except.ok ⟨j, "H", "A", 100, 0, true, j != 5, "9"⟩)
      (fun _ => Except.ok (some (ScoreResult.finished (some 2) (some 1))))
      (fun _ => true) 100000 6).1
      = (List.range' 1 5).filterMap (fun j => if j = 3 then none
          else settleStep
            (fun j => if j = 3 then Except.error "boom"
              else Except.ok ⟨j, "H", "A", 100, 0, true, j != 5, "9"⟩)
            (fun _ => Except.ok (some (ScoreResult.finished (some 2) (some 1))))
            100000 j) := by
  constructor
  · exact c8_error_isolation.1 _
      (fun _ => Except.ok (some (ScoreResult.finished (some 2) (some 1))))
      100000 3 "boom" rfl
  · exact c8_error_isolation.2.2.2.1 _ _ (fun _ => true) 100000 6 3 "boom"

/-! ### Helper lemmas about the registration loop -/

/-- The success counter never exceeds the cap once it starts below it. -/
theorem createLoop_snd_le (w : Fixture → Bool) (maxCreates : Nat) :
    ∀ (fs : List Fixture) (created : Nat), created ≤ maxCreates →
      (createLoop w maxCreates fs created).2 ≤ maxCreates := by
  intro fs
  induction fs with
  | nil => intro c h; exact h
  | cons fx rest ih =>
    intro c h
    unfold createLoop
    split_ifs with h1 h2 hw
    · exact h
    · exact ih c h
    · exact ih (c + 1) (by omega)
    · exact ih c h

/-- The whole-run success counter never exceeds the cap either. -/
theorem registerRun_snd_le (w : Fixture → Bool) (maxCreates : Nat)
    (fixturesOf : String → List Fixture) :
    ∀ (leagues : List String) (created : Nat), created ≤ maxCreates →
      (registerRun w maxCreates fixturesOf leagues created).2 ≤ maxCreates := by
  intro leagues
  induction leagues with
  | nil => intro c h; exact h
  | cons lg rest ih =>
    intro c h
    unfold registerRun
    split_ifs with h1
    · exact h
    · exact ih _ (createLoop_snd_le w maxCreates (fixturesOf lg) c h)

/-- Every call the capped loop issues originates in a `status = "NS"`
fixture of its input. -/
theorem createLoop_mem_status (w : Fixture → Bool) (maxCreates : Nat) :
    ∀ (fs : List Fixture) (created : Nat) (c : CreateCall),
      c ∈ (createLoop w maxCreates fs created).1 →
      ∃ fx, fx ∈ fs ∧ fx.status = "NS" ∧ c = mkCreateCall fx := by
  intro fs
  induction fs with
  | nil => intro c cc h; simp [createLoop] at h
  | cons fx rest ih =>
    intro created cc h
    unfold createLoop at h
    split_ifs at h with h1 h2 hw
    · simp at h
    · obtain ⟨g, hg, hst, hc⟩ := ih created cc h
      exact ⟨g, List.mem_cons_of_mem fx hg, hst, hc⟩
    · simp only [List.mem_cons] at h
      rcases h with h | h
      · exact ⟨fx, List.mem_cons_self fx rest, Classical.not_not.mp h2, h⟩
      · obtain ⟨g, hg, hst, hc⟩ := ih _ cc h
        exact ⟨g, List.mem_cons_of_mem fx hg, hst, hc⟩
    · simp only [List.mem_cons] at h
      rcases h with h | h
      · exact ⟨fx, List.mem_cons_self fx rest, Classical.not_not.mp h2, h⟩
      · obtain ⟨g, hg, hst, hc⟩ := ih _ cc h
        exact ⟨g, List.mem_cons_of_mem fx hg, hst, hc⟩

/-- When every write fails, the counter stays at zero and every eligible
fixture is attempted. -/
theorem createLoop_all_writes_fail (maxCreates : Nat) (hN : 0 < maxCreates) :
    ∀ fs : List Fixture,
      createLoop (fun _ => false) maxCreates fs 0
        = ((fs.filter (fun fx => fx.status == "NS")).map mkCreateCall, 0) := by
  intro fs
  induction fs with
  | nil => rfl
  | cons fx rest ih =>
    unfold createLoop
    rw [if_neg (by omega)]
    by_cases hst : fx.status = "NS"
    · rw [if_neg (by simp [hst])]
      show (mkCreateCall fx :: (createLoop (fun _ => false) maxCreates rest 0).1,
        (createLoop (fun _ => false) maxCreates rest 0).2) = _
      rw [ih, List.filter_cons, if_pos (by simp [hst])]
      rfl
    · rw [if_pos hst, List.filter_cons, if_neg (by simpa using hst)]
      exact ih

/-- C7: the creation cap bounds successful registrations.  (1) Across a
whole multi-league run the success counter never exceeds the cap `N`;
(2) failed attempts do not count toward the cap: when every write fails,
the counter stays at 0 while every eligible fixture is still attempted;
(3) with `N = 1` and two eligible fixtures whose writes succeed, exactly
the first is registered and the second is never attempted. -/
theorem c7_creation_cap :
    (∀ (w : Fixture → Bool) (N : Nat) (fixturesOf : String → List Fixture)
       (leagues : List String),
      (registerRun w N fixturesOf leagues 0).2 ≤ N) ∧
    (∀ (N : Nat) (fs : List Fixture), 0 < N →
      createLoop (fun _ => false) N fs 0
        = ((fs.filter (fun fx => fx.status == "NS")).map mkCreateCall, 0)) ∧
    (∀ f1 f2 : Fixture, f1.status = "NS" → f2.status = "NS" →
      createLoop (fun _ => true) 1 [f1, f2] 0 = ([mkCreateCall f1], 1)) := by
  refine ⟨?_, ?_, ?_⟩
  · exact fun w N fixturesOf leagues =>
      registerRun_snd_le w N fixturesOf leagues 0 (Nat.zero_le N)
  · exact fun N fs hN => createLoop_all_writes_fail N hN fs
  · intro f1 f2 h1 h2
    simp [createLoop, h1]

/-- Witness for C7: a concrete two-fixture batch with cap 1 registers
exactly the first fixture, and with failing writes a single eligible
fixture is attempted while the counter stays 0. -/
theorem c7_creation_cap_witness :
    createLoop (fun _ => true) 1
      [⟨1, "A", "B", 10, "NS"⟩, ⟨2, "C", "D", 20, "NS"⟩] 0
      = ([⟨"A", "B", 10, "1"⟩], 1) ∧
    createLoop (fun _ => false) 1 [⟨5, "A", "B", 10, "NS"⟩] 0
      = ([⟨"A", "B", 10, "5"⟩], 0) := by
  constructor
  · exact (c7_creation_cap.2.2 ⟨1, "A", "B", 10, "NS"⟩ ⟨2, "C", "D", 20, "NS"⟩
      rfl rfl).trans (by decide)
  · exact (c7_creation_cap.2.1 1 [⟨5, "A", "B", 10, "NS"⟩] (by decide)).trans
      (by decide)

/-- C3 counterexample: the part_002 variant has no status filter, so a
fixture whose provider status is `"FT"` (not `"NS"`) still receives a
registration call — refuting the claim's "in every variant". -/
theorem c3_status_filter_counterexample :
    P002.scheduled
        [ApiResponse.parsed (some [⟨7, 123000, 100, "FT", "A", "B"⟩])]
      = Except.ok [⟨"A", "B", 100, "7"⟩] ∧
    ((⟨7, 123000, 100, "FT", "A", "B"⟩ : RawFixture).statusShort == "NS")
      = false :=
  ⟨rfl, rfl⟩

/-- C3 amended: in the variants with a status filter (worker.js,
part_000, part_003 — all running `createLoop`), a fixture whose status is
not `"NS"` receives zero registration calls: every call issued by the
registrar originates in a `status = "NS"` fixture.  The part_002 variant
attempts registration for every fetched fixture regardless of status. -/
theorem c3_status_filter_amended (w : Fixture → Bool) (N : Nat)
    (fs : List Fixture) (c : CreateCall)
    (hc : c ∈ (createLoop w N fs 0).1) :
    ∃ fx, fx ∈ fs ∧ fx.status = "NS" ∧ c = mkCreateCall fx :=
  createLoop_mem_status w N fs 0 c hc

/-- Witness for the amended C3 at a concrete input: the single call
issued for a one-fixture batch traces back to an `"NS"` fixture. -/
theorem c3_status_filter_amended_witness :
    ∃ fx, fx ∈ [(⟨5, "A", "B", 10, "NS"⟩ : Fixture)] ∧ fx.status = "NS" ∧
      (⟨"A", "B", 10, "5"⟩ : CreateCall) = mkCreateCall fx :=
  c3_status_filter_amended (fun _ => true) 1 [⟨5, "A", "B", 10, "NS"⟩]
    ⟨"A", "B", 10, "5"⟩ (by decide)

/-- C4: the Score Source contract.  (1) When the provider has no record
for the identifier (`data.response?.[0]` absent) the result is `null`;
(2) a finished result is produced only from a parsed response whose
leading record's `status.short` is exactly `"FT"`, and the scores are
that record's goals — never fabricated from missing or ambiguous data;
(3) a present record in any other status yields a pending result. -/
theorem c4_score_source_contract :
    (∀ r : Option (List ProviderFixture), r.bind List.head? = none →
      fetchScore (ApiResponse.parsed r) = Except.ok none) ∧
    (∀ (r : ApiResponse (List ProviderFixture)) (h a : Option Nat),
      fetchScore r = Except.ok (some (ScoreResult.finished h a)) →
      ∃ resp fx, r = ApiResponse.parsed resp ∧
        resp.bind List.head? = some fx ∧ fx.statusShort = "FT" ∧
        h = fx.goalsHome ∧ a = fx.goalsAway) ∧
    (∀ (resp : Option (List ProviderFixture)) (fx : ProviderFixture),
      resp.bind List.head? = some fx → fx.statusShort ≠ "FT" →
      fetchScore (ApiResponse.parsed resp) = Except.ok (some ScoreResult.pending)) := by
  refine ⟨?_, ?_, ?_⟩
  · intro r hr
    simp only [fetchScore, hr]
  · intro r h a hfin
    cases r with
    | transportError => exact absurd hfin (by simp [fetchScore])
    | malformedBody => exact absurd hfin (by simp [fetchScore])
    | parsed resp =>
      refine ⟨resp, ?_⟩
      simp only [fetchScore] at hfin
      cases hfx : resp.bind List.head? with
      | none =>
        rw [hfx] at hfin
        exact absurd hfin (by simp)
      | some fx =>
        rw [hfx] at hfin
        refine ⟨fx, rfl, rfl, ?_⟩
        by_cases hft : fx.statusShort = "FT"
        · simp only [hft, if_true] at hfin
          have h2 := Option.some.inj (Except.ok.inj hfin)
          cases h2
          exact ⟨hft, rfl, rfl⟩
        · simp only [if_neg hft] at hfin
          exact absurd (Option.some.inj (Except.ok.inj hfin)) (by simp)
  · intro resp fx hfx hft
    simp only [fetchScore, hfx, if_neg hft]

/-- Witness for C4: a missing record yields `null`, an `"FT"` record
yields the finished 2:1 result, and an `"HT"` record yields pending. -/
theorem c4_score_source_contract_witness :
    fetchScore (ApiResponse.parsed none) = Except.ok none ∧
    (∃ resp fx, (ApiResponse.parsed (some [⟨"FT", some 2, some 1⟩])
        : ApiResponse (List ProviderFixture)) = ApiResponse.parsed resp ∧
      resp.bind List.head? = some fx ∧ fx.statusShort = "FT" ∧
      (some 2 : Option Nat) = fx.goalsHome ∧ (some 1 : Option Nat) = fx.goalsAway) ∧
    fetchScore (ApiResponse.parsed (some [⟨"HT", none, none⟩]))
      = Except.ok (some ScoreResult.pending) :=
  ⟨c4_score_source_contract.1 none rfl,
   c4_score_source_contract.2.1 (ApiResponse.parsed (some [⟨"FT", some 2, some 1⟩]))
     (some 2) (some 1) rfl,
   c4_score_source_contract.2.2 (some [⟨"HT", none, none⟩]) ⟨"HT", none, none⟩
     rfl (by decide)⟩

/-- C5 counterexample: part_000's `fetchFixtures` has no exception
handling, so a transport failure propagates as an exception instead of
yielding an empty fixture list — refuting the claim for that variant's
league fetches (part_003's identical fetcher included). -/
theorem c5_fail_open_counterexample :
    P000.fetchFixtures ApiResponse.transportError
      = Except.error "TypeError: fetch failed" ∧
    (P000.fetchFixtures ApiResponse.transportError).isOk = false :=
  ⟨rfl, rfl⟩

/-- C5 amended: only the worker.js variant's `fetchFixtures` is
fail-open — a transport failure, a malformed body or a missing `response`
field each yield the empty fixture list, and a parsed payload is
normalized; in the part_000 / part_003 variants the same failures
propagate out of `fetchFixtures` with no handler on the call path, so the
part_000 run aborts before issuing any call. -/
theorem c5_fail_open_amended :
    Worker.fetchFixtures ApiResponse.transportError = [] ∧
    Worker.fetchFixtures ApiResponse.malformedBody = [] ∧
    Worker.fetchFixtures (ApiResponse.parsed none) = [] ∧
    (∀ fs : List RawFixture,
      Worker.fetchFixtures (ApiResponse.parsed (some fs))
        = fs.map normalizeFixture) ∧
    (∀ (w : Fixture → Bool) (N : Nat)
       (read : Nat → Except String OnChainMatch)
       (fscore : String → Except String (Option ScoreResult))
       (write : SettleCall → Bool) (now nextMatchId : Nat),
      P000.runAutomation true none ApiResponse.transportError w N
          read fscore write now nextMatchId
        = ⟨[], [], some "TypeError: fetch failed"⟩) :=
  ⟨rfl, rfl, rfl, fun fs => rfl,
   fun w N read fscore write now nextMatchId => rfl⟩

/-- C6: the quota guard of part_000 is inverted with respect to its own
comments and log line ("Check API remaining quota", "Stopping — too close
to daily limit"): `fetchApiUsage` returns `requests.current` — the number
of calls already used — and the guard aborts when that number is below 5.
With 99 of 100 daily calls used (1 remaining, well under any sane
threshold) the run proceeds to issue registration and settlement calls;
with 0 of 100 used (the full allowance available) the run aborts. -/
theorem c6_quota_guard_inverted :
    (100 - 99 < 5) ∧
    P000.runAutomation true (some (some ⟨99, 100⟩))
        (ApiResponse.parsed (some [⟨7, 50000, 50, "NS", "A", "B"⟩]))
        (fun _ => true) 10
        (fun i => if i = 1
          then Except.ok ⟨1, "H", "A", 100, 0, true, false, "55"⟩
          else Except.error "revert")
        (fun _ => Except.ok (some (ScoreResult.finished (some 2) (some 1))))
        (fun _ => true) 100000 2
      = ⟨[⟨"A", "B", 50, "7"⟩], [⟨1, some 2, some 1⟩], none⟩ ∧
    ¬(100 - 0 < 5) ∧
    P000.runAutomation true (some (some ⟨0, 100⟩))
        (ApiResponse.parsed (some [⟨7, 50000, 50, "NS", "A", "B"⟩]))
        (fun _ => true) 10
        (fun i => if i = 1
          then Except.ok ⟨1, "H", "A", 100, 0, true, false, "55"⟩
          else Except.error "revert")
        (fun _ => Except.ok (some (ScoreResult.finished (some 2) (some 1))))
        (fun _ => true) 100000 2
      = ⟨[], [], none⟩ :=
  ⟨by decide, by decide, by decide, by decide⟩

/-- C9 counterexample: an invocation that passes the configuration check
but carries `BATCH_LIMIT = "0"` breaks out of the registration loop
before the first league's fetch, so `fetchFixturesFree` is never
evaluated, no `ReferenceError` is thrown, and the settlement scan still
runs — here issuing one settlement call, refuting "zero settlement calls
issued" for every passing invocation. -/
theorem c9_reference_error_counterexample :
    Worker.runAutomation true (fun _ => []) (fun _ => true) 0
        (fun i => if i = 1
          then Except.ok ⟨1, "H", "A", 100, 0, true, false, "55"⟩
          else Except.error "revert")
        (fun _ => Except.ok (some (ScoreResult.finished (some 2) (some 1))))
        (fun _ => true) 100000 2
      = ⟨[], [⟨1, some 2, some 1⟩], none⟩ := by
  decide

/-- C9 amended: for every invocation of the worker.js variant that passes
the configuration check and whose parsed batch limit is positive (the
default `"10"` included), the registration loop's first league evaluates
the undefined identifier `fetchFixturesFree` outside any try/catch; the
resulting `ReferenceError` rejects the run with zero registration calls
and zero settlement calls issued.  (With a batch limit of 0 the loop
breaks before the fetch and settlement still runs.) -/
theorem c9_reference_error_amended
    (fixturesOf : String → List Fixture) (w : Fixture → Bool)
    (batchLimit : Nat) (read : Nat → Except String OnChainMatch)
    (fscore : String → Except String (Option ScoreResult))
    (write : SettleCall → Bool) (now nextMatchId : Nat)
    (hN : 0 < batchLimit) :
    Worker.runAutomation true fixturesOf w batchLimit read fscore write
        now nextMatchId
      = ⟨[], [], some "ReferenceError: fetchFixturesFree is not defined"⟩ := by
  have hcontains : Worker.topLevelNames.contains "fetchFixturesFree" = false := by
    decide
  unfold Worker.runAutomation Worker.leagues Worker.registerPhase
  rw [hcontains, if_neg (show ¬0 ≥ batchLimit by omega)]
  simp

/-- Witness for the amended C9: with the default batch limit 10 and
arbitrary oracles, the run rejects with the `ReferenceError` and an empty
trace. -/
theorem c9_reference_error_amended_witness :
    Worker.runAutomation true (fun _ => []) (fun _ => true) 10
        (fun _ => Except.error "revert") (fun _ => Except.error "down")
        (fun _ => true) 0 0
      = ⟨[], [], some "ReferenceError: fetchFixturesFree is not defined"⟩ :=
  c9_reference_error_amended (fun _ => []) (fun _ => true) 10
    (fun _ => Except.error "revert") (fun _ => Except.error "down")
    (fun _ => true) 0 0 (by decide)

/-- C10: the ScoreBat variant can never settle.  `fetchScorebatResult`
returns the placeholder `{finished: false}` for every identifier, so
every iteration of part_001's settlement loop skips at the
`!result.finished` check: for every chain state, clock and scan range the
variant issues zero `settleMatchOffChain` calls, and a completed run's
only write effect is the single KV snapshot under `"matches.json"`. -/
theorem c10_scorebat_never_settles :
    (∀ externalId : String,
      (P001.fetchScorebatResult externalId).finished = false) ∧
    (∀ (read : Nat → Except String OnChainMatch) (now i : Nat),
      P001.settleStep read now i = none) ∧
    (∀ (read : Nat → Except String OnChainMatch) (now nextMatchId : Nat),
      P001.settleMatches read now nextMatchId = []) ∧
    (∀ (cfgOk : Bool) (feed : ApiResponse (List P001.ScorebatEvent))
       (read : Nat → Except String OnChainMatch) (now nextMatchId : Nat),
      (P001.runAutomation cfgOk feed read now nextMatchId).settleCalls = [] ∧
      (P001.runAutomation true feed read now nextMatchId).kvPuts
        = [("matches.json", P001.fetchScorebat feed)]) := by
  have hstep : ∀ (read : Nat → Except String OnChainMatch) (now i : Nat),
      P001.settleStep read now i = none := by
    intro read now i
    unfold P001.settleStep
    cases read i with
    | error e => rfl
    | ok m =>
      show (if (!m.«exists» || m.deleted) = true then none
            else if m.outcome ≠ 0 then none
            else if m.matchTime + 7200 > now then none
            else (none : Option SettleCall)) = none
      split_ifs <;> rfl
  have hscan : ∀ (read : Nat → Except String OnChainMatch) (now n : Nat),
      P001.settleMatches read now n = [] := by
    intro read now n
    unfold P001.settleMatches
    exact List.filterMap_eq_nil_iff.mpr (fun i _ => hstep read now i)
  refine ⟨fun _ => rfl, hstep, hscan, ?_⟩
  intro cfgOk feed read now n
  constructor
  · cases cfgOk with
    | false => rfl
    | true => exact hscan read now n
  · rfl
